import Mathlib

/-!
Shallow embedding of the data pipeline of `src/app.py` (Open-RO dashboard):
field parsers (dates, money, strings), per-record enrichment, the dataset
sort, the TTL cache (`load_data` / `get_df`), the filter engine
(`apply_filters`) and the paging of the `/api/rows` endpoint.

Modelling conventions:
  * A raw cell of the frame is `Option String`: `none` models a missing value
    (NaN) and `some s` a textual cell.  The CSV reader keeps cells textual.
  * Timestamps are whole seconds since the Unix epoch, as `Int`.  The source
    works with pandas timestamps (nanosecond precision); every value the
    pipeline manufactures is whole seconds, and the model fixes second
    resolution.  `none` models `NaT`.
  * Monetary amounts are exact rationals (`Rat`); the source uses IEEE
    doubles, and every amount exercised below is exactly representable.
  * Library calls (`pandas` / `dateutil` / CPython `strptime`, `float`) are
    modelled by executable Lean functions whose doc comments state which
    library behaviour they translate.
-/

/-- A raw cell of the loaded frame: `none` is a missing value (NaN),
`some s` a textual cell. -/
abbrev Cell := Option String

/-! ## String helpers

String manipulation is carried out on the underlying character lists so
that every definition evaluates by kernel reduction; the helpers translate
the Python string methods the source uses (on the ASCII range they
exercise). -/

/-- The whitespace characters Python `str.strip()` removes (ASCII range). -/
def is_py_space (c : Char) : Bool :=
  c = ' ' || c = '\t' || c = '\n' || c = '\r' || c.toNat = 11 || c.toNat = 12

/-- Python `str.strip()`: removes leading and trailing whitespace. -/
def py_strip (s : String) : String :=
  String.mk (((s.toList.dropWhile is_py_space).reverse.dropWhile is_py_space).reverse)

/-- Python `str.replace(pat, "")` for a one-character pattern: every
occurrence of the character is removed. -/
def remove_char (c : Char) (s : String) : String :=
  String.mk (s.toList.filter fun d => d != c)

/-- Splits a character list at the characters satisfying `p`, keeping empty
pieces (the semantics of `String.split` and of `re.split` on single
characters). -/
def split_chars (p : Char → Bool) : List Char → List (List Char)
  | [] => [[]]
  | c :: rest =>
    let r := split_chars p rest
    if p c then [] :: r
    else
      match r with
      | [] => [[c]]
      | h :: t => (c :: h) :: t

/-- Joins words with single spaces (`" ".join(...)`). -/
def join_space : List String → String
  | [] => ""
  | [w] => w
  | w :: ws => w ++ " " ++ join_space ws

/-- Numeric value of a list of decimal digit characters (most significant
first), with an accumulator. -/
def digits_to_nat (acc : Nat) : List Char → Nat
  | [] => acc
  | c :: cs => digits_to_nat (acc * 10 + (c.toNat - 48)) cs

/-- Removes every case-insensitive occurrence of `rs` followed by an optional
dot, scanning left to right.  Translation of the call
`re.sub(r"(?i)rs\.?", "", s)` in `clean_money_to_float`
(src/app.py line 75). -/
def strip_rs_chars : List Char → List Char
  | c1 :: c2 :: c3 :: rest =>
    if (c1 = 'r' ∨ c1 = 'R') ∧ (c2 = 's' ∨ c2 = 'S') then
      if c3 = '.' then strip_rs_chars rest
      else strip_rs_chars (c3 :: rest)
    else c1 :: strip_rs_chars (c2 :: c3 :: rest)
  | [c1, c2] =>
    if (c1 = 'r' ∨ c1 = 'R') ∧ (c2 = 's' ∨ c2 = 'S') then []
    else c1 :: strip_rs_chars [c2]
  | [c1] => [c1]
  | [] => []

/-- Parses the restricted decimal grammar that can reach the `float(s)` call
of `clean_money_to_float` (src/app.py line 84): after the preceding
substitutions the string contains only digits, dots and minus signs.  CPython
`float` accepts an optional sign followed by digits with at most one decimal
point (at least one digit overall) and raises otherwise; `none` models the
raised `ValueError`. -/
def py_float_restricted (cs : List Char) : Option Rat :=
  let signed : Bool × List Char :=
    match cs with
    | '-' :: t => (true, t)
    | _ => (false, cs)
  let neg := signed.1
  let cs1 := signed.2
  let intDigits := cs1.takeWhile Char.isDigit
  let rest1 := cs1.dropWhile Char.isDigit
  let mag : Option Rat :=
    match rest1 with
    | [] =>
      if intDigits = [] then none
      else some ((digits_to_nat 0 intDigits : Nat) : Rat)
    | '.' :: fracPart =>
      let fracDigits := fracPart.takeWhile Char.isDigit
      let rest2 := fracPart.dropWhile Char.isDigit
      if rest2 ≠ [] then none
      else if intDigits = [] ∧ fracDigits = [] then none
      else
        some (((digits_to_nat 0 intDigits : Nat) : Rat) +
          ((digits_to_nat 0 fracDigits : Nat) : Rat) / ((10 : Rat) ^ fracDigits.length))
    | _ => none
  match mag with
  | none => none
  | some q => some (if neg then -q else q)

/-- Translation of `clean_money_to_float` (src/app.py lines 63-86): strips a
rupee sign and case-insensitive `rs` / `rs.` occurrences, drops thousands
separators, keeps only digits / minus / dot, then parses as a float; blank or
unparseable input yields `0.0`.  Total: no exception escapes. -/
def clean_money_to_float (x : Cell) : Rat :=
  match x with
  | none => 0
  | some x0 =>
    let s := py_strip x0
    if s ∈ (["", "-", "nan", "NaT", "None"] : List String) then 0
    else
      let s1 := remove_char '₹' s
      let s2 := String.mk (strip_rs_chars s1.toList)
      let s3 := py_strip (remove_char ',' s2)
      let s4 := String.mk (s3.toList.filter fun c => c.isDigit || c == '.' || c == '-')
      if s4 ∈ (["", "-", ".", "-."] : List String) then 0
      else (py_float_restricted s4.toList).getD 0

/-- Translation of `age_bucket_from_days` (src/app.py lines 88-99). -/
def age_bucket_from_days (days : Int) : String :=
  if days ≤ 3 then "0-3 days"
  else if days ≤ 10 then "4-10 days"
  else if days ≤ 15 then "11-15 days"
  else if days ≤ 30 then "16-30 days"
  else if days ≤ 60 then "31-60 days"
  else "Above 60"

/-- Translation of `safe_str` (src/app.py lines 101-105): missing or blank
cells map to the supplied default, other cells to their trimmed text. -/
def safe_str (v : Cell) (dflt : String) : String :=
  match v with
  | none => dflt
  | some s =>
    let t := py_strip s
    if t = "" then dflt else t

/-- Capitalisation of one whitespace-free token: first character upper-cased,
the rest lower-cased (`p[:1].upper() + p[1:].lower()`,
src/app.py line 142). -/
def capitalize_token (t : String) : String :=
  match t.toList with
  | [] => ""
  | c :: rest => String.mk (c.toUpper :: rest.map Char.toLower)

/-- Translation of `proper_case_name` (src/app.py lines 137-143): split the
trimmed input on whitespace runs, capitalise each token, rejoin the nonempty
tokens with single spaces. -/
def proper_case_name (s : String) : String :=
  let parts :=
    ((split_chars is_py_space (py_strip s).toList).map String.mk).filter
      (fun p => p != "")
  join_space ((parts.map capitalize_token).filter (fun p => p != ""))

/-- Rendering of a cell by pandas `astype(str)`: a missing value prints as
`nan`, a textual cell as itself. -/
def astype_str (v : Cell) : String :=
  match v with
  | none => "nan"
  | some s => s

/-! ## Calendar arithmetic -/

/-- Gregorian leap-year test. -/
def is_leap (y : Int) : Bool :=
  (y % 4 == 0 && y % 100 != 0) || (y % 400 == 0)

/-- Length of month `m` of year `y`. -/
def days_in_month (y : Int) (m : Nat) : Nat :=
  if m = 2 then (if is_leap y then 29 else 28)
  else if m ∈ ([4, 6, 9, 11] : List Nat) then 30
  else 31

/-- Days from the civil date `y-m-d` to 1970-01-01 (negative before the
epoch); the standard days-from-civil algorithm. -/
def days_from_civil (y : Int) (m d : Nat) : Int :=
  let y2 : Int := if m ≤ 2 then y - 1 else y
  let era : Int := Int.fdiv y2 400
  let yoe : Int := y2 - era * 400
  let mp : Int := if 2 < m then (m : Int) - 3 else (m : Int) + 9
  let doy : Int := (153 * mp + 2) / 5 + (d : Int) - 1
  let doe : Int := yoe * 365 + yoe / 4 - yoe / 100 + doy
  era * 146097 + doe - 719468

/-- Checks that `y-m-d` is a real calendar date. -/
def valid_ymd (y : Int) (m d : Nat) : Bool :=
  1 ≤ m && m ≤ 12 && 1 ≤ d && d ≤ days_in_month y m

/-- Midnight timestamp (seconds since the epoch) of the calendar date
`y-m-d`, when that is a real date inside the pandas `Timestamp` range (the
model uses the conservative interior 1678-2261 of the nanosecond-precision
range); out-of-range or impossible dates yield `none`, matching the
`OutOfBoundsDatetime` / `ValueError` raised by pandas and caught by the
source's `except` clauses. -/
def mk_timestamp (y : Int) (m d : Nat) : Option Int :=
  if 1678 ≤ y && y ≤ 2261 && valid_ymd y m d then
    some (days_from_civil y m d * 86400)
  else none

/-! ## Format-directed date parsing

Model of `pd.to_datetime(s, format=fmt, errors="raise")`
(src/app.py line 48 and line 58), which parses with CPython-`strptime`
semantics and requires the whole string to be consumed: `%Y` matches one to
four digits, `%y` one or two digits (values up to 68 map to 20xx, the rest to
19xx), `%m` and `%d` one or two digits, `%b` a case-insensitive three-letter
English month abbreviation, and a whitespace run in the format matches a
whitespace run in the input. -/

/-- One directive of a date format string. -/
inductive FmtItem where
  | year4
  | year2
  | monthNum
  | monthAbbrev
  | dayNum
  | ws
  | lit (c : Char)
deriving DecidableEq

/-- Reads greedily up to `k` leading digits. -/
def read_digits_upto : Nat → List Char → (List Char × List Char)
  | 0, cs => ([], cs)
  | _ + 1, [] => ([], [])
  | k + 1, c :: cs =>
    if c.isDigit then
      let p := read_digits_upto k cs
      (c :: p.1, p.2)
    else ([], c :: cs)

/-- Lower-case three-letter English month abbreviations, in month order. -/
def month_abbrevs : List String :=
  ["jan", "feb", "mar", "apr", "may", "jun",
   "jul", "aug", "sep", "oct", "nov", "dec"]

/-- Lower-case full English month names, in month order. -/
def month_fulls : List String :=
  ["january", "february", "march", "april", "may", "june", "july",
   "august", "september", "october", "november", "december"]

/-- Reads a case-insensitive three-letter month abbreviation, returning the
month number and the rest of the input. -/
def read_month_abbrev (cs : List Char) : Option (Nat × List Char) :=
  let pre := String.mk ((cs.take 3).map Char.toLower)
  let i := List.indexOf pre month_abbrevs
  if i < 12 then some (i + 1, cs.drop 3) else none

/-- Accumulated year / month / day fields of a format-directed parse. -/
structure StrpAcc where
  y : Option Int
  m : Option Nat
  d : Option Nat
deriving DecidableEq

/-- Runs a format over the input; fails when a directive does not match or
when input remains after the format is exhausted (CPython strptime's
"unconverted data remains"). -/
def run_fmt : List FmtItem → List Char → StrpAcc → Option StrpAcc
  | [], [], acc => some acc
  | [], _ :: _, _ => none
  | item :: fmt, cs, acc =>
    match item with
    | .year4 =>
      let p := read_digits_upto 4 cs
      if p.1 = [] then none
      else run_fmt fmt p.2 { acc with y := some ((digits_to_nat 0 p.1 : Nat) : Int) }
    | .year2 =>
      let p := read_digits_upto 2 cs
      if p.1 = [] then none
      else
        let v := digits_to_nat 0 p.1
        let yy : Int := if v ≤ 68 then 2000 + (v : Int) else 1900 + (v : Int)
        run_fmt fmt p.2 { acc with y := some yy }
    | .monthNum =>
      let p := read_digits_upto 2 cs
      if p.1 = [] then none
      else run_fmt fmt p.2 { acc with m := some (digits_to_nat 0 p.1) }
    | .dayNum =>
      let p := read_digits_upto 2 cs
      if p.1 = [] then none
      else run_fmt fmt p.2 { acc with d := some (digits_to_nat 0 p.1) }
    | .monthAbbrev =>
      match read_month_abbrev cs with
      | some mr => run_fmt fmt mr.2 { acc with m := some mr.1 }
      | none => none
    | .ws =>
      match cs with
      | c :: rest =>
        if c.isWhitespace then run_fmt fmt (rest.dropWhile Char.isWhitespace) acc
        else none
      | [] => none
    | .lit c =>
      match cs with
      | c2 :: rest => if c2 = c then run_fmt fmt rest acc else none
      | [] => none

/-- Parses the whole string with one format and validates the resulting
calendar date against the pandas timestamp range. -/
def strptime_fmt (fmt : List FmtItem) (s : String) : Option Int :=
  match run_fmt fmt s.toList ⟨none, none, none⟩ with
  | some acc =>
    match acc.y, acc.m, acc.d with
    | some y, some m, some d => mk_timestamp y m d
    | _, _, _ => none
  | none => none

/-- The format `%Y-%m-%d`. -/
def fmt_Ymd : List FmtItem := [.year4, .lit '-', .monthNum, .lit '-', .dayNum]

/-- The format `%d/%m/%Y`. -/
def fmt_dmY_slash : List FmtItem := [.dayNum, .lit '/', .monthNum, .lit '/', .year4]

/-- The format `%d-%m-%Y`. -/
def fmt_dmY_dash : List FmtItem := [.dayNum, .lit '-', .monthNum, .lit '-', .year4]

/-- The format `%d/%m/%y`. -/
def fmt_dmy_slash : List FmtItem := [.dayNum, .lit '/', .monthNum, .lit '/', .year2]

/-- The format `%d-%b-%Y`. -/
def fmt_dbY_dash : List FmtItem := [.dayNum, .lit '-', .monthAbbrev, .lit '-', .year4]

/-- The format `%d %b %Y`. -/
def fmt_dbY_space : List FmtItem := [.dayNum, .ws, .monthAbbrev, .ws, .year4]

/-- The ordered format list of `parse_date_any` (src/app.py line 46). -/
def date_formats : List (List FmtItem) :=
  [fmt_Ymd, fmt_dmY_slash, fmt_dmY_dash, fmt_dmy_slash, fmt_dbY_dash, fmt_dbY_space]

/-- Tries each format in order, mirroring the source's
`for fmt in (...): try ... except: pass` loop (src/app.py lines 46-50). -/
def try_formats : List (List FmtItem) → String → Option Int
  | [], _ => none
  | f :: fs, s =>
    match strptime_fmt f s with
    | some t => some t
    | none => try_formats fs s

/-! ## Lenient fallback date parsing -/

/-- One recognised token of the lenient parse: a number (with its digit
count, which decides two-digit-year expansion) or a month name. -/
inductive LTok where
  | num (n : Nat) (len : Nat)
  | mon (m : Nat)
deriving DecidableEq

/-- Splits on the separators the lenient parser recognises and drops empty
pieces. -/
def lenient_tokens (s : String) : List String :=
  ((split_chars
      (fun c => c = ' ' || c = '/' || c = '-' || c = '.' || c = ':' || c = ',')
      s.toList).map String.mk).filter (fun t => t != "")

/-- Classifies one token: all-digits tokens are numbers, English month
abbreviations or full names (case-insensitive) are months, anything else is
unrecognised and fails the whole lenient parse. -/
def classify_token (t : String) : Option LTok :=
  let cs := t.toList
  if cs ≠ [] ∧ cs.all Char.isDigit then some (.num (digits_to_nat 0 cs) cs.length)
  else
    let low := String.mk (cs.map Char.toLower)
    let i3 := List.indexOf low month_abbrevs
    if i3 < 12 then some (.mon (i3 + 1))
    else
      let iF := List.indexOf low month_fulls
      if iF < 12 then some (.mon (iF + 1)) else none

/-- Two-digit years expand like CPython's `%y` (up to 68 maps to 20xx). -/
def expand_year (n len : Nat) : Int :=
  if len ≤ 2 then (if n ≤ 68 then 2000 + (n : Int) else 1900 + (n : Int))
  else (n : Int)

/-- Model of the lenient fallback `pd.to_datetime(s, errors="coerce",
dayfirst=True)` (src/app.py lines 51 and 60), a dateutil-style parse, on the
input shapes the model supports: three tokens forming a date (numbers and/or
a month name; a leading three-or-more-digit number is a year, otherwise the
day is preferred first and day/month are swapped when the month slot is
impossible), optionally followed by a numeric `h:m:s` time.  Any
unrecognised token, or any other shape, fails to `none`, which models the
`NaT` that `errors="coerce"` produces. -/
def lenient_parse_dayfirst (s : String) : Option Int :=
  match (lenient_tokens s).mapM classify_token with
  | none => none
  | some toks =>
    let date_part : List LTok → Option Int := fun dts =>
      match dts with
      | [.num a la, .num b _, .num c lc] =>
        if 3 ≤ la ∨ 1000 ≤ a then mk_timestamp (a : Int) b c
        else
          let y := expand_year c lc
          match mk_timestamp y b a with
          | some t => some t
          | none => mk_timestamp y a b
      | [.num a _, .mon m, .num c lc] => mk_timestamp (expand_year c lc) m a
      | [.mon m, .num b _, .num c lc] => mk_timestamp (expand_year c lc) m b
      | _ => none
    match toks with
    | [t1, t2, t3] => date_part [t1, t2, t3]
    | [t1, t2, t3, .num hh _, .num mi _, .num ss _] =>
      match date_part [t1, t2, t3] with
      | some t =>
        if hh < 24 ∧ mi < 60 ∧ ss < 60 then
          some (t + (hh : Int) * 3600 + (mi : Int) * 60 + (ss : Int))
        else none
      | none => none
    | _ => none

/-! ## The two date entry points -/

/-- Translation of `parse_date_any` (src/app.py lines 38-51): missing cells
and the literal sentinels map to absent, then the six explicit formats are
tried in order, then the lenient day-first fallback; absent (`none`,
modelling `NaT`) is the only failure signal and no exception escapes. -/
def parse_date_any (v : Cell) : Option Int :=
  match v with
  | none => none
  | some raw =>
    let s := py_strip raw
    if s ∈ (["", "-", "nan", "NaT", "None"] : List String) then none
    else
      match try_formats date_formats s with
      | some t => some t
      | none => lenient_parse_dayfirst s

/-- Translation of `parse_iso_yyyy_mm_dd` (src/app.py lines 53-61): empty
input means no bound, `%Y-%m-%d` is tried first, then the lenient day-first
fallback; an unparseable string yields `none`. -/
def parse_iso_yyyy_mm_dd (s : Option String) : Option Int :=
  let t := py_strip (s.getD "")
  if t = "" then none
  else
    match strptime_fmt fmt_Ymd t with
    | some v => some v
    | none => lenient_parse_dayfirst t

/-! ## Records and enrichment -/

/-- The cells of one source row that the pipeline reads.  The loader
synthesises every required column that the sheet lacks as all-blank
(src/app.py lines 222-224), so each field is present as a possibly missing
cell; `modelValue` is the cell of the model-name column resolved by
`pick_first_existing_column` (lines 226-229), an all-missing column when no
candidate exists. -/
structure RawRecord where
  dealerCode : Cell
  repairOrder : Cell
  roOpenDate : Cell
  vehicleRegNo : Cell
  vin : Cell
  odometer : Cell
  assignedTo : Cell
  rawStatus : Cell
  srType : Cell
  holdReason : Cell
  totalROAmount : Cell
  totalPartsAmount : Cell
  totalLaborAmount : Cell
  ownerFirstName : Cell
  ownerLastName : Cell
  modelValue : Cell
deriving DecidableEq

/-- One row after the derivation steps of `load_data`
(src/app.py lines 231-257). -/
structure EnrichedRecord where
  raw : RawRecord
  RO_DATE_DT : Option Int
  DAYS_OPEN : Int
  AGE_BUCKET : String
  HOLD_REASON_CLEAN : String
  MODEL_NAME_CLEAN : String
  CUSTOMER_NAME : String
  RO_AMOUNT_NUM : Rat
  PARTS_AMOUNT_NUM : Rat
  LABOR_AMOUNT_NUM : Rat
deriving DecidableEq

/-- Translation of the per-row derivations of `load_data`
(src/app.py lines 231-257).  `today` is the midnight timestamp
`pd.Timestamp(date.today())`; `(today - dt).dt.days` floors the signed
second difference to whole days, absent dates fill with 0, and negative
values clamp to 0. -/
def enrich_record (today : Int) (r : RawRecord) : EnrichedRecord :=
  let dt := parse_date_any r.roOpenDate
  let days0 : Int :=
    match dt with
    | some d => Int.fdiv (today - d) 86400
    | none => 0
  let days := if days0 < 0 then 0 else days0
  let hold0 := safe_str r.holdReason ""
  let hold := if hold0 = "" then "No reason" else hold0
  let model0 := safe_str r.modelValue ""
  let model := if model0 = "" then "Unknown" else model0
  let fn := safe_str r.ownerFirstName ""
  let ln := safe_str r.ownerLastName ""
  let name0 := proper_case_name ((fn ++ " " ++ ln).trim)
  let name := if name0 = "" then "Unknown" else name0
  { raw := r
    RO_DATE_DT := dt
    DAYS_OPEN := days
    AGE_BUCKET := age_bucket_from_days days
    HOLD_REASON_CLEAN := hold
    MODEL_NAME_CLEAN := model
    CUSTOMER_NAME := name
    RO_AMOUNT_NUM := clean_money_to_float r.totalROAmount
    PARTS_AMOUNT_NUM := clean_money_to_float r.totalPartsAmount
    LABOR_AMOUNT_NUM := clean_money_to_float r.totalLaborAmount }

/-! ## The dataset sort -/

/-- Stable insertion of `x` into a list sorted ascending by `key`: `x` goes
before the first strictly greater key, after equal keys. -/
def insert_asc (key : EnrichedRecord → Int) (x : EnrichedRecord) :
    List EnrichedRecord → List EnrichedRecord
  | [] => [x]
  | y :: ys => if key x ≤ key y then x :: y :: ys else y :: insert_asc key x ys

/-- Stable ascending insertion sort by `key`. -/
def insertion_sort_asc (key : EnrichedRecord → Int) :
    List EnrichedRecord → List EnrichedRecord
  | [] => []
  | x :: xs => insert_asc key x (insertion_sort_asc key xs)

/-- Translation of
`df.sort_values("RO_DATE_DT", ascending=False, na_position="last")`
(src/app.py line 260) through pandas `nargsort`: the absent-date rows are
removed and appended last in original order; the remaining rows are
reversed, argsorted ascending, and reversed back, yielding a descending
order.  `nargsort`'s sort kernel is numpy's `kind="quicksort"`, whose order
among equal keys is unspecified (it is the stable insertion sort only below
the introsort partition threshold of 16 elements and is version- and
platform-dependent above it); the model fixes the kernel as the stable
insertion sort. -/
def sort_snapshot (l : List EnrichedRecord) : List EnrichedRecord :=
  let key : EnrichedRecord → Int := fun r => (r.RO_DATE_DT).getD 0
  let nonNa := l.filter (fun r => (r.RO_DATE_DT).isSome)
  let na := l.filter (fun r => !(r.RO_DATE_DT).isSome)
  (insertion_sort_asc key nonNa.reverse).reverse ++ na

/-! ## The cache -/

/-- The mutable module-level `CACHE` of the source (src/app.py lines
180-185): the current dataset, the time of the last load attempt and the
last error message.  The `model_col` bookkeeping entry is column-name
metadata outside this row-level model. -/
structure CacheState where
  df : List EnrichedRecord
  loaded_at : Option Int
  error : Option String
deriving DecidableEq

/-- Translation of `load_data` (src/app.py lines 207-274) as a state
transition.  `ttl` is the configured `CACHE_SECONDS`, `now` the current
time, `today` the midnight timestamp used by the enrichment, and `fetch`
the outcome of `_read_google_sheet_csv()`: `Except.ok` carries the fetched
rows and `Except.error` the message of the raised exception.  The returned
`Bool` records whether a fetch was attempted.  Mirrors the source exactly:
the attempt is skipped only when not forced, a load time exists, its age is
below the TTL and the cached frame is nonempty; on success the enriched and
sorted snapshot replaces the frame; on failure a nonempty frame is kept (an
empty one stays the empty frame), the error string is recorded and the load
time is set to `now`.  The staleness check of lines 213-216 is split out
as `cache_fresh`: the attempt is skipped exactly when it holds. -/
def cache_fresh (ttl : Int) (st : CacheState) (now : Int) (force : Bool) : Bool :=
  !force &&
    (match st.loaded_at with
     | some t => decide (now - t < ttl) && !st.df.isEmpty
     | none => false)

/-- Continuation of the `load_data` translation: the body proper. -/
def load_data (ttl today : Int) (st : CacheState) (now : Int) (force : Bool)
    (fetch : Except String (List RawRecord)) : CacheState × Bool :=
  if cache_fresh ttl st now force then (st, false)
  else
    match fetch with
    | .ok raw =>
      ({ df := sort_snapshot (raw.map (enrich_record today))
         loaded_at := some now
         error := none }, true)
    | .error e =>
      ({ df := st.df
         loaded_at := some now
         error := some e }, true)

/-- Translation of `get_df` (src/app.py lines 276-278): a non-forced
`load_data` followed by reading the cached frame. -/
def get_df (ttl today : Int) (st : CacheState) (now : Int)
    (fetch : Except String (List RawRecord)) : CacheState × List EnrichedRecord :=
  let st2 := (load_data ttl today st now false fetch).1
  (st2, st2.df)

/-! ## The filter engine -/

/-- The request arguments `apply_filters` reads (src/app.py lines 286-295),
after the `args.get` defaulting: an absent categorical parameter arrives as
`"All"` and an absent text parameter as `""`. -/
structure FilterArgs where
  branch : String
  argStatus : String
  age_bucket : String
  sr_type : String
  hold_reason : String
  model_name : String
  reg_search : String
  from_date : String
  to_date : String
deriving DecidableEq

/-- Applies one optional filter stage: the frame is restricted to the rows
satisfying `p` when `active` is set and passed through unchanged otherwise,
mirroring the `if cond: out = out[mask]` stages of `apply_filters`. -/
def maybe_filter (active : Bool) (p : EnrichedRecord → Bool)
    (l : List EnrichedRecord) : List EnrichedRecord :=
  if active then l.filter p else l

/-- Substring containment of `key` in `hay`, the semantics of
`Series.str.contains(key, na=False)` (src/app.py line 312) for search keys
free of regular-expression metacharacters (the reading the source relies
on for registration numbers). -/
def str_contains (hay key : String) : Bool :=
  contains_aux hay.toList key.toList
where
  /-- Checks whether `key` occurs as a contiguous run of `hay`. -/
  contains_aux : List Char → List Char → Bool
    | hs, ks => ks.isPrefixOf hs ||
        (match hs with
         | [] => false
         | _ :: t => contains_aux t ks)

/-- Upper-casing as Python `str.upper()` on the ASCII range. -/
def str_upper (s : String) : String := String.mk (s.toList.map Char.toUpper)

/-- Translation of the categorical and search stages of `apply_filters`
(src/app.py lines 297-312), in source order: six exact-equality stages,
each active when its argument is neither empty nor `"All"`, then the
case-insensitive registration-number containment, active when the trimmed
search key is nonempty. -/
def categorical_pass (args : FilterArgs) (df : List EnrichedRecord) :
    List EnrichedRecord :=
  maybe_filter (py_strip args.reg_search != "")
    (fun r => str_contains (str_upper (astype_str r.raw.vehicleRegNo))
      (str_upper (py_strip args.reg_search)))
    (maybe_filter (args.model_name != "" && args.model_name != "All")
      (fun r => r.MODEL_NAME_CLEAN == args.model_name)
      (maybe_filter (args.hold_reason != "" && args.hold_reason != "All")
        (fun r => r.HOLD_REASON_CLEAN == args.hold_reason)
        (maybe_filter (args.sr_type != "" && args.sr_type != "All")
          (fun r => astype_str r.raw.srType == args.sr_type)
          (maybe_filter (args.age_bucket != "" && args.age_bucket != "All")
            (fun r => r.AGE_BUCKET == args.age_bucket)
            (maybe_filter (args.argStatus != "" && args.argStatus != "All")
              (fun r => astype_str r.raw.rawStatus == args.argStatus)
              (maybe_filter (args.branch != "" && args.branch != "All")
                (fun r => astype_str r.raw.dealerCode == args.branch) df))))))

/-- The parsed lower date bound `fd` of `apply_filters`
(src/app.py line 317): the trimmed `from_date` argument is parsed when
nonempty. -/
def fd_of (args : FilterArgs) : Option Int :=
  if py_strip args.from_date != "" then
    parse_iso_yyyy_mm_dd (some (py_strip args.from_date))
  else none

/-- The parsed upper date bound `td` of `apply_filters`
(src/app.py line 318). -/
def td_of (args : FilterArgs) : Option Int :=
  if py_strip args.to_date != "" then
    parse_iso_yyyy_mm_dd (some (py_strip args.to_date))
  else none

/-- The lower-bound stage `out = out[out["RO_DATE_DT"] >= fd]`
(src/app.py lines 319-320); a pandas comparison against `NaT` is false, so
an absent date fails the mask. -/
def lower_bound_pass (fd : Option Int) (out : List EnrichedRecord) :
    List EnrichedRecord :=
  match fd with
  | some f =>
    out.filter (fun r =>
      match r.RO_DATE_DT with
      | some d => decide (f ≤ d)
      | none => false)
  | none => out

/-- The upper-bound stage (src/app.py lines 321-323): the bound is extended
to `td + 1 day - 1 second` and rows with `RO_DATE_DT <= td_end` are kept; a
pandas comparison against `NaT` is false, so an absent date fails the
mask. -/
def upper_bound_pass (td : Option Int) (out : List EnrichedRecord) :
    List EnrichedRecord :=
  match td with
  | some t =>
    out.filter (fun r =>
      match r.RO_DATE_DT with
      | some d => decide (d ≤ t + 86400 - 1)
      | none => false)
  | none => out

/-- Translation of the date-range stages of `apply_filters`
(src/app.py lines 314-325). -/
def date_range_pass (args : FilterArgs) (out : List EnrichedRecord) :
    List EnrichedRecord :=
  upper_bound_pass (td_of args) (lower_bound_pass (fd_of args) out)

/-- Translation of `apply_filters` (src/app.py lines 283-325): the
categorical / search stages followed by the date-range stages.  The
`out = df.copy()` of line 284 and the defensive re-derivation of
`RO_DATE_DT` (lines 314-315) are identities in this model: a snapshot row
always carries its parsed date. -/
def apply_filters (df : List EnrichedRecord) (args : FilterArgs) :
    List EnrichedRecord :=
  date_range_pass args (categorical_pass args df)

/-! ## Paging of the rows endpoint -/

/-- Normalisation of one Python slice endpoint against a length `n`: a
negative endpoint counts from the end and both endpoints clamp to the
bounds. -/
def slice_index (i n : Int) : Int :=
  if i < 0 then max (n + i) 0 else min i n

/-- Python list slicing `l[a:b]` (positional `iloc` slicing follows the same
rule). -/
def py_slice {α : Type} (l : List α) (a b : Int) : List α :=
  (l.take (slice_index b (l.length : Int)).toNat).drop
    (slice_index a (l.length : Int)).toNat

/-- Translation of the paging of the `/api/rows` endpoint
(src/app.py line 446): `filtered.iloc[skip : skip + limit]` when
`limit > 0`, the whole filtered frame otherwise. -/
def page_rows {α : Type} (filtered : List α) (skip limit : Int) : List α :=
  if 0 < limit then py_slice filtered skip (skip + limit) else filtered

/-! ## Statement-level predicates and sample data -/

/-- Every categorical criterion of a request is the sentinel `"All"` and the
registration search is blank: no categorical or search stage restricts. -/
def no_categorical (a : FilterArgs) : Prop :=
  a.branch = "All" ∧ a.argStatus = "All" ∧ a.age_bucket = "All" ∧
  a.sr_type = "All" ∧ a.hold_reason = "All" ∧ a.model_name = "All" ∧
  py_strip a.reg_search = ""

/-- No criterion of the request restricts at all: all categoricals are
`"All"`, the search is blank and no date bound is given. -/
def no_filter (a : FilterArgs) : Prop :=
  no_categorical a ∧ py_strip a.from_date = "" ∧ py_strip a.to_date = ""

/-- A concrete raw row used by the closed witness statements. -/
def sample_raw : RawRecord :=
  { dealerCode := some "D01"
    repairOrder := some "RO100"
    roOpenDate := some "2024-01-02"
    vehicleRegNo := some "MH12AB1234"
    vin := none
    odometer := some "1200"
    assignedTo := some "SA One"
    rawStatus := some "Open"
    srType := some "Paid"
    holdReason := none
    totalROAmount := some "Rs 100"
    totalPartsAmount := some "50"
    totalLaborAmount := some "50"
    ownerFirstName := some "john"
    ownerLastName := some "doe"
    modelValue := some "Kwid" }

/-- A concrete raw row whose open-date cell is the absent sentinel. -/
def sample_raw_absent : RawRecord :=
  { sample_raw with roOpenDate := some "-" }

/-- The enrichment of `sample_raw` as of 2024-01-02. -/
def sample_enriched : EnrichedRecord := enrich_record 1704153600 sample_raw

/-- A concrete enriched row whose parsed date 2024-01-02 10:00:00 carries a
time-of-day component. -/
def rec_tod : EnrichedRecord :=
  { raw := sample_raw
    RO_DATE_DT := some 1704189600
    DAYS_OPEN := 0
    AGE_BUCKET := "0-3 days"
    HOLD_REASON_CLEAN := "No reason"
    MODEL_NAME_CLEAN := "Kwid"
    CUSTOMER_NAME := "John Doe"
    RO_AMOUNT_NUM := 0
    PARTS_AMOUNT_NUM := 0
    LABOR_AMOUNT_NUM := 0 }

/-- A concrete enriched row with an absent parsed date. -/
def rec_absent : EnrichedRecord :=
  { rec_tod with raw := sample_raw_absent, RO_DATE_DT := none }

/-- A cache state holding one row, loaded at time 0. -/
def st_loaded : CacheState :=
  { df := [sample_enriched], loaded_at := some 0, error := none }

/-- Request arguments with every criterion inactive. -/
def args_all : FilterArgs :=
  { branch := "All"
    argStatus := "All"
    age_bucket := "All"
    sr_type := "All"
    hold_reason := "All"
    model_name := "All"
    reg_search := ""
    from_date := ""
    to_date := "" }

/-- Request arguments with only an upper date bound 2024-01-02. -/
def args_to : FilterArgs := { args_all with to_date := "2024-01-02" }

/-- Request arguments with only a lower date bound 2024-01-02. -/
def args_from : FilterArgs := { args_all with from_date := "2024-01-02" }

/-! ## Helper lemmas -/

theorem maybe_filter_sublist (c : Bool) (p : EnrichedRecord → Bool)
    (l : List EnrichedRecord) : (maybe_filter c p l).Sublist l := by
  unfold maybe_filter
  split
  · exact List.filter_sublist l
  · exact List.Sublist.refl l

theorem maybe_filter_false (p : EnrichedRecord → Bool)
    (l : List EnrichedRecord) : maybe_filter false p l = l := rfl

theorem categorical_pass_sublist (a : FilterArgs) (df : List EnrichedRecord) :
    (categorical_pass a df).Sublist df := by
  unfold categorical_pass
  exact (maybe_filter_sublist _ _ _).trans ((maybe_filter_sublist _ _ _).trans
    ((maybe_filter_sublist _ _ _).trans ((maybe_filter_sublist _ _ _).trans
      ((maybe_filter_sublist _ _ _).trans ((maybe_filter_sublist _ _ _).trans
        (maybe_filter_sublist _ _ _))))))

theorem categorical_pass_id (a : FilterArgs) (df : List EnrichedRecord)
    (h : no_categorical a) : categorical_pass a df = df := by
  obtain ⟨h1, h2, h3, h4, h5, h6, h7⟩ := h
  unfold categorical_pass
  rw [h1, h2, h3, h4, h5, h6, h7]
  rfl

theorem lower_bound_pass_sublist (fd : Option Int) (l : List EnrichedRecord) :
    (lower_bound_pass fd l).Sublist l := by
  unfold lower_bound_pass
  cases fd
  · exact List.Sublist.refl l
  · exact List.filter_sublist l

theorem upper_bound_pass_sublist (td : Option Int) (l : List EnrichedRecord) :
    (upper_bound_pass td l).Sublist l := by
  unfold upper_bound_pass
  cases td
  · exact List.Sublist.refl l
  · exact List.filter_sublist l

theorem fd_of_none (a : FilterArgs) (h : py_strip a.from_date = "") :
    fd_of a = none := by
  simp [fd_of, h]

theorem td_of_none (a : FilterArgs) (h : py_strip a.to_date = "") :
    td_of a = none := by
  simp [td_of, h]

theorem fd_of_ne (a : FilterArgs) (h : py_strip a.from_date ≠ "") :
    fd_of a = parse_iso_yyyy_mm_dd (some (py_strip a.from_date)) := by
  simp [fd_of, h]

theorem td_of_ne (a : FilterArgs) (h : py_strip a.to_date ≠ "") :
    td_of a = parse_iso_yyyy_mm_dd (some (py_strip a.to_date)) := by
  simp [td_of, h]

theorem apply_filters_sublist (df : List EnrichedRecord) (a : FilterArgs) :
    (apply_filters df a).Sublist df := by
  unfold apply_filters date_range_pass
  exact (upper_bound_pass_sublist _ _).trans
    ((lower_bound_pass_sublist _ _).trans (categorical_pass_sublist a df))

theorem apply_filters_id (df : List EnrichedRecord) (a : FilterArgs)
    (h : no_filter a) : apply_filters df a = df := by
  obtain ⟨hc, hf, ht⟩ := h
  unfold apply_filters date_range_pass
  rw [fd_of_none a hf, td_of_none a ht, categorical_pass_id a df hc]
  rfl

theorem absent_not_mem_lower (f : Int) (l : List EnrichedRecord)
    (r : EnrichedRecord) (h : r.RO_DATE_DT = none) :
    r ∉ lower_bound_pass (some f) l := by
  intro hmem
  unfold lower_bound_pass at hmem
  rw [List.mem_filter] at hmem
  rw [h] at hmem
  simp at hmem

theorem absent_not_mem_upper (t : Int) (l : List EnrichedRecord)
    (r : EnrichedRecord) (h : r.RO_DATE_DT = none) :
    r ∉ upper_bound_pass (some t) l := by
  intro hmem
  unfold upper_bound_pass at hmem
  rw [List.mem_filter] at hmem
  rw [h] at hmem
  simp at hmem

theorem load_data_of_fresh (ttl today : Int) (st : CacheState) (now : Int)
    (force : Bool) (fetch : Except String (List RawRecord))
    (h : cache_fresh ttl st now force = true) :
    load_data ttl today st now force fetch = (st, false) := by
  unfold load_data
  rw [h]
  rfl

theorem load_data_error_of_stale (ttl today : Int) (st : CacheState)
    (now : Int) (force : Bool) (e : String)
    (h : cache_fresh ttl st now force = false) :
    load_data ttl today st now force (Except.error e)
      = ({ df := st.df, loaded_at := some now, error := some e }, true) := by
  unfold load_data
  rw [h]
  rfl

theorem cache_fresh_of (ttl : Int) (st : CacheState) (now t : Int)
    (h1 : st.loaded_at = some t) (h2 : st.df ≠ []) (h3 : now - t < ttl) :
    cache_fresh ttl st now false = true := by
  unfold cache_fresh
  rw [h1]
  simp [h3, h2]

theorem slice_eq_drop_take {α : Type} (l : List α) (a b : Nat) :
    (l.take (min (a + b) l.length)).drop (min a l.length)
      = (l.drop a).take b := by
  rcases Nat.le_total a l.length with h | h
  · rw [Nat.min_eq_left h, List.drop_take, List.take_eq_take]
    simp only [List.length_drop]
    omega
  · have e1 : min a l.length = l.length := by omega
    have e2 : min (a + b) l.length = l.length := by omega
    rw [e1, e2, List.take_length]
    rw [List.drop_eq_nil_iff.mpr (le_refl _)]
    rw [List.drop_eq_nil_iff.mpr h]
    simp

/-! ## The claims -/

/-- C8: the money parser is total and maps the documented inputs to the
documented values: `Rs 12,345.00` and `₹12,345` and `12345` parse to
`12345.0`, while blank, the standalone `-`, `.` and `-.` strings,
alphabetic text and a missing cell all parse to `0.0`. -/
theorem money_parser_documented_values :
    clean_money_to_float (some "Rs 12,345.00") = 12345 ∧
    clean_money_to_float (some "₹12,345") = 12345 ∧
    clean_money_to_float (some "12345") = 12345 ∧
    clean_money_to_float (some "") = 0 ∧
    clean_money_to_float (some "-") = 0 ∧
    clean_money_to_float (some ".") = 0 ∧
    clean_money_to_float (some "-.") = 0 ∧
    clean_money_to_float (some "abc") = 0 ∧
    clean_money_to_float none = 0 := by
  refine ⟨?_, ?_, ?_, rfl, rfl, rfl, rfl, rfl, rfl⟩
  · have h : clean_money_to_float (some "Rs 12,345.00")
        = ((12345 : Nat) : Rat) + ((0 : Nat) : Rat) / ((10 : Rat) ^ (2 : Nat)) := rfl
    rw [h]
    norm_num
  · have h : clean_money_to_float (some "₹12,345") = ((12345 : Nat) : Rat) := rfl
    rw [h]
    norm_num
  · have h : clean_money_to_float (some "12345") = ((12345 : Nat) : Rat) := rfl
    rw [h]
    norm_num

/-- C9: the date parser maps a missing cell and each of the textual
sentinels to the absent marker, and gibberish text that matches no
supported format and fails the lenient fallback is also absent; the parser
is a total function, so absent is the only failure signal and no exception
escapes. -/
theorem date_parser_absent_inputs :
    parse_date_any none = none ∧
    parse_date_any (some "") = none ∧
    parse_date_any (some "-") = none ∧
    parse_date_any (some "nan") = none ∧
    parse_date_any (some "NaT") = none ∧
    parse_date_any (some "None") = none ∧
    parse_date_any (some "not-a-date") = none := by
  decide

/-- C1 counterexample: with `skip = 1` and `limit = 0` over a two-element
filtered sequence, the code returns the whole sequence, not the records
from position `skip` onward as the claim states. -/
theorem paging_limit_zero_keeps_skipped :
    ¬ (page_rows ([10, 20] : List Nat) 1 0
        = List.drop 1 ([10, 20] : List Nat)) := by
  decide

/-- C1 amended: for a nonnegative `skip`, a positive `limit` selects the
contiguous sub-sequence from positions `skip` to `skip + limit` of the
filtered sequence, while `limit ≤ 0` returns the entire filtered sequence,
ignoring `skip`. -/
theorem paging_contiguous_subsequence (α : Type) (l : List α)
    (skip limit : Int) (hs : 0 ≤ skip) :
    (0 < limit →
      page_rows l skip limit = (l.drop skip.toNat).take limit.toNat) ∧
    (limit ≤ 0 → page_rows l skip limit = l) := by
  constructor
  · intro hl
    unfold page_rows py_slice slice_index
    rw [if_pos hl, if_neg (by omega), if_neg (by omega)]
    have e1 : (min skip ((l.length : Nat) : Int)).toNat
        = min skip.toNat l.length := by
      rcases le_total skip ((l.length : Nat) : Int) with h | h
      · rw [min_eq_left h]
        omega
      · rw [min_eq_right h]
        omega
    have e2 : (min (skip + limit) ((l.length : Nat) : Int)).toNat
        = min (skip.toNat + limit.toNat) l.length := by
      rcases le_total (skip + limit) ((l.length : Nat) : Int) with h | h
      · rw [min_eq_left h]
        omega
      · rw [min_eq_right h]
        omega
    rw [e1, e2, slice_eq_drop_take]
  · intro hl
    unfold page_rows
    rw [if_neg (by omega)]

/-- Closed witness for the amended C1 statement at a concrete list. -/
theorem paging_contiguous_subsequence_witness :
    (page_rows ([10, 20, 30, 40, 50] : List Nat) 1 2
      = (([10, 20, 30, 40, 50] : List Nat).drop (1 : Int).toNat).take
          (2 : Int).toNat) ∧
    page_rows ([10, 20, 30, 40, 50] : List Nat) 1 0
      = ([10, 20, 30, 40, 50] : List Nat) := by
  constructor
  · exact (paging_contiguous_subsequence Nat [10, 20, 30, 40, 50] 1 2
      (by decide)).1 (by decide)
  · exact (paging_contiguous_subsequence Nat [10, 20, 30, 40, 50] 1 0
      (by decide)).2 (by decide)

/-- C2: a non-forced `get` whose cached nonempty snapshot is younger than
the time-to-live returns the state unchanged without fetching; a fetch is
attempted only when no load time exists, the frame is empty, or the age
reached the time-to-live; and a forced reload always fetches regardless of
age.  The snapshot existing is read as a load time being recorded together
with a nonempty frame, and the age being within the time-to-live as
`now - t < ttl`. -/
theorem cache_get_within_ttl (ttl today now : Int) (st : CacheState)
    (fetch fetch2 : Except String (List RawRecord)) :
    (∀ t, st.loaded_at = some t → st.df ≠ [] → now - t < ttl →
      load_data ttl today st now false fetch = (st, false)) ∧
    ((load_data ttl today st now false fetch).2 = true →
      st.loaded_at = none ∨ st.df = [] ∨
        ∃ t, st.loaded_at = some t ∧ ttl ≤ now - t) ∧
    (load_data ttl today st now true fetch2).2 = true := by
  refine ⟨?_, ?_, ?_⟩
  · intro t h1 h2 h3
    exact load_data_of_fresh ttl today st now false fetch
      (cache_fresh_of ttl st now t h1 h2 h3)
  · intro h
    rcases hf : cache_fresh ttl st now false with _ | _
    · unfold cache_fresh at hf
      rcases hlo : st.loaded_at with _ | t
      · exact Or.inl rfl
      · rw [hlo] at hf
        simp only [Bool.not_false, Bool.true_and, Bool.and_eq_false_iff,
          decide_eq_false_iff_not, not_lt, Bool.not_eq_false] at hf
        rcases hf with hage | hemp
        · exact Or.inr (Or.inr ⟨t, rfl, hage⟩)
        · exact Or.inr (Or.inl (List.isEmpty_iff.mp (by simpa using hemp)))
    · rw [load_data_of_fresh ttl today st now false fetch hf] at h
      simp at h
  · unfold load_data cache_fresh
    simp only [Bool.not_true, Bool.false_and, if_false]
    cases fetch2
    · rfl
    · rfl

/-- Closed witness for C2: a concrete one-row cache loaded at time 0 and
read at time 30 with a 60-second time-to-live is returned unchanged with no
fetch even though the source would fail, and a forced reload at the same
moment fetches. -/
theorem cache_get_within_ttl_witness :
    load_data 60 1704153600 st_loaded 30 false (Except.error "down")
      = (st_loaded, false) ∧
    (load_data 60 1704153600 st_loaded 30 true (Except.ok [])).2 = true := by
  constructor
  · exact (cache_get_within_ttl 60 1704153600 30 st_loaded
      (Except.error "down") (Except.ok [])).1 0 rfl
      (by simp [st_loaded]) (by norm_num)
  · exact (cache_get_within_ttl 60 1704153600 30 st_loaded
      (Except.error "down") (Except.ok [])).2.2

/-- C3: a reload attempt whose fetch raises leaves the cached frame exactly
as it was (in particular a prior nonempty snapshot is preserved and an
empty cache stays the empty, zero-row frame), records the error message,
and returns to the caller instead of propagating the exception (the
transition is a total function into a well-formed state). -/
theorem reload_failure_preserves (ttl today now : Int) (st : CacheState)
    (force : Bool) (e : String)
    (h : (load_data ttl today st now force (Except.error e)).2 = true) :
    (load_data ttl today st now force (Except.error e)).1.df = st.df ∧
    (load_data ttl today st now force (Except.error e)).1.error = some e ∧
    (st.df = [] → (load_data ttl today st now force (Except.error e)).1.df = []) := by
  rcases hf : cache_fresh ttl st now force with _ | _
  · rw [load_data_error_of_stale ttl today st now force e hf]
    exact ⟨rfl, rfl, fun he => he⟩
  · rw [load_data_of_fresh ttl today st now force (Except.error e) hf] at h
    simp at h

/-- Closed witness for C3: a forced reload of a concrete nonempty cache
with a failing fetch keeps the frame and records the message. -/
theorem reload_failure_preserves_witness :
    (load_data 60 1704153600 st_loaded 100 true (Except.error "boom")).1.df
      = st_loaded.df ∧
    (load_data 60 1704153600 st_loaded 100 true (Except.error "boom")).1.error
      = some "boom" ∧
    (st_loaded.df = [] →
      (load_data 60 1704153600 st_loaded 100 true (Except.error "boom")).1.df
        = []) :=
  reload_failure_preserves 60 1704153600 100 st_loaded true "boom" rfl

/-- C10: a failed reload attempt stamps the cache's load time with the time
of the failure, so while a prior nonempty snapshot exists, every non-forced
`get` issued less than one time-to-live after the failure returns the state
unchanged without fetching: the failure resets the TTL clock. -/
theorem failed_reload_resets_ttl_clock (ttl today today2 now now2 : Int)
    (st : CacheState) (force : Bool) (e : String)
    (fetch2 : Except String (List RawRecord))
    (hAtt : (load_data ttl today st now force (Except.error e)).2 = true)
    (hne : st.df ≠ []) (hrecent : now2 - now < ttl) :
    (load_data ttl today st now force (Except.error e)).1.loaded_at
      = some now ∧
    load_data ttl today2 ((load_data ttl today st now force (Except.error e)).1)
        now2 false fetch2
      = ((load_data ttl today st now force (Except.error e)).1, false) := by
  rcases hf : cache_fresh ttl st now force with _ | _
  · rw [load_data_error_of_stale ttl today st now force e hf]
    refine ⟨rfl, ?_⟩
    exact load_data_of_fresh ttl today2 _ now2 false fetch2
      (cache_fresh_of ttl _ now2 now rfl hne hrecent)
  · rw [load_data_of_fresh ttl today st now force (Except.error e) hf] at hAtt
    simp at hAtt

/-- Closed witness for C10: after a concrete failed forced reload at time
100 over a nonempty cache, a non-forced `get` at time 150 under a
60-second time-to-live does not fetch. -/
theorem failed_reload_resets_ttl_clock_witness :
    (load_data 60 1704153600 st_loaded 100 true (Except.error "down")).1.loaded_at
      = some 100 ∧
    load_data 60 1704240000
        ((load_data 60 1704153600 st_loaded 100 true (Except.error "down")).1)
        150 false (Except.ok [])
      = ((load_data 60 1704153600 st_loaded 100 true (Except.error "down")).1,
          false) :=
  failed_reload_resets_ttl_clock 60 1704153600 1704240000 100 150 st_loaded
    true "down" (Except.ok []) rfl (by simp [st_loaded]) (by norm_num)

/-- C6: for every snapshot and every filter specification the filter engine
returns a subsequence of the snapshot preserving its relative order, and a
specification in which every categorical criterion is the sentinel, the
search is blank and no date bound is set returns the full snapshot
unchanged in content and order. -/
theorem filters_sublist_and_empty_spec_id (df : List EnrichedRecord)
    (a : FilterArgs) :
    (apply_filters df a).Sublist df ∧
    (no_filter a → apply_filters df a = df) := by
  exact ⟨apply_filters_sublist df a, apply_filters_id df a⟩

/-- Closed witness for C6: the all-sentinel specification returns a
concrete one-row snapshot unchanged. -/
theorem filters_sublist_and_empty_spec_id_witness :
    apply_filters [rec_tod] args_all = [rec_tod] :=
  (filters_sublist_and_empty_spec_id [rec_tod] args_all).2
    ⟨⟨rfl, rfl, rfl, rfl, rfl, rfl, rfl⟩, rfl, rfl⟩

/-- C5: the date-range criterion is inclusive on both ends.  With no other
criterion active, an upper bound parsed to the midnight `t` keeps every
record whose parsed date lies anywhere inside that calendar day (the bound
is extended to the last second of the day), and a lower bound parsed to `f`
keeps every record with date at least `f`, including `f` itself; a record
with an absent parsed date is never kept when a lower or an upper bound is
in force, whatever the other criteria. -/
theorem date_range_inclusive (df : List EnrichedRecord) (a : FilterArgs)
    (r : EnrichedRecord) (t f d : Int) :
    (no_categorical a → py_strip a.from_date = "" → py_strip a.to_date ≠ "" →
      parse_iso_yyyy_mm_dd (some (py_strip a.to_date)) = some t →
      t % 86400 = 0 → r.RO_DATE_DT = some d → t ≤ d → d < t + 86400 →
      r ∈ df → r ∈ apply_filters df a) ∧
    (no_categorical a → py_strip a.to_date = "" → py_strip a.from_date ≠ "" →
      parse_iso_yyyy_mm_dd (some (py_strip a.from_date)) = some f →
      r.RO_DATE_DT = some d → f ≤ d →
      r ∈ df → r ∈ apply_filters df a) ∧
    (r.RO_DATE_DT = none → (fd_of a ≠ none ∨ td_of a ≠ none) →
      r ∉ apply_filters df a) := by
  refine ⟨?_, ?_, ?_⟩
  · intro hcat hfrom hto hparse hmid hdate hle hlt hmem
    unfold apply_filters date_range_pass
    rw [categorical_pass_id a df hcat, fd_of_none a hfrom]
    have htd : td_of a = some t := by rw [td_of_ne a hto, hparse]
    rw [htd]
    show r ∈ upper_bound_pass (some t) (lower_bound_pass none df)
    unfold lower_bound_pass upper_bound_pass
    rw [List.mem_filter]
    refine ⟨hmem, ?_⟩
    rw [hdate]
    exact decide_eq_true (by omega)
  · intro hcat hto hfrom hparse hdate hle hmem
    unfold apply_filters date_range_pass
    rw [categorical_pass_id a df hcat, td_of_none a hto]
    have hfd : fd_of a = some f := by rw [fd_of_ne a hfrom, hparse]
    rw [hfd]
    show r ∈ upper_bound_pass none (lower_bound_pass (some f) df)
    unfold lower_bound_pass upper_bound_pass
    rw [List.mem_filter]
    refine ⟨hmem, ?_⟩
    rw [hdate]
    exact decide_eq_true hle
  · intro hnone hbound hmem
    unfold apply_filters date_range_pass at hmem
    rcases htd : td_of a with _ | t2
    · rcases hbound with hfd | hb
      · rcases hfd2 : fd_of a with _ | f2
        · exact hfd hfd2
        · rw [htd] at hmem
          have hmem2 : r ∈ lower_bound_pass (fd_of a) (categorical_pass a df) := hmem
          rw [hfd2] at hmem2
          exact absent_not_mem_lower f2 _ r hnone hmem2
      · exact hb htd
    · rw [htd] at hmem
      exact absent_not_mem_upper t2 _ r hnone hmem

/-- Closed witness for C5: with upper bound 2024-01-02, a concrete record
dated 2024-01-02 10:00:00 is kept; with lower bound 2024-01-02 it is also
kept; a record with an absent date is dropped under the upper bound. -/
theorem date_range_inclusive_witness :
    rec_tod ∈ apply_filters [rec_tod] args_to ∧
    rec_tod ∈ apply_filters [rec_tod] args_from ∧
    rec_absent ∉ apply_filters [rec_absent] args_to := by
  refine ⟨?_, ?_, ?_⟩
  · exact (date_range_inclusive [rec_tod] args_to rec_tod 1704153600 0
      1704189600).1 ⟨rfl, rfl, rfl, rfl, rfl, rfl, rfl⟩ rfl (by decide) rfl
      (by decide) rfl (by decide) (by decide) (List.mem_singleton.mpr rfl)
  · exact (date_range_inclusive [rec_tod] args_from rec_tod 0 1704153600
      1704189600).2.1 ⟨rfl, rfl, rfl, rfl, rfl, rfl, rfl⟩ rfl (by decide) rfl
      rfl (by decide) (List.mem_singleton.mpr rfl)
  · exact (date_range_inclusive [rec_absent] args_to rec_absent 0 0 0).2.2
      rfl (Or.inr (by decide))

/-- C7: every enriched record carries concrete derived values: the cleaned
hold reason, model name and customer name are nonempty, the age bucket is
one of the six buckets, `days_open` is an integer at least 0, and both an
absent parsed date and a negative day difference yield `days_open = 0`
(the parsed date itself is either a date or the explicit absent marker,
and the three parsed amounts are concrete numbers by construction). -/
theorem enriched_fields_populated (today : Int) (r : RawRecord) :
    0 ≤ (enrich_record today r).DAYS_OPEN ∧
    ((enrich_record today r).RO_DATE_DT = none →
      (enrich_record today r).DAYS_OPEN = 0) ∧
    (∀ d, (enrich_record today r).RO_DATE_DT = some d →
      Int.fdiv (today - d) 86400 < 0 → (enrich_record today r).DAYS_OPEN = 0) ∧
    (enrich_record today r).HOLD_REASON_CLEAN ≠ "" ∧
    (enrich_record today r).MODEL_NAME_CLEAN ≠ "" ∧
    (enrich_record today r).CUSTOMER_NAME ≠ "" ∧
    (enrich_record today r).AGE_BUCKET ∈
      (["0-3 days", "4-10 days", "11-15 days", "16-30 days", "31-60 days",
        "Above 60"] : List String) := by
  unfold enrich_record
  simp only
  refine ⟨?_, ?_, ?_, ?_, ?_, ?_, ?_⟩
  · split
    · omega
    · omega
  · intro hdt
    rw [hdt]
    simp
  · intro d hdt hneg
    rw [hdt]
    have hm : (match some d with
        | some d => Int.fdiv (today - d) 86400
        | none => (0 : Int)) = Int.fdiv (today - d) 86400 := rfl
    rw [hm, if_pos hneg]
  · split
    · simp
    · next h => exact h
  · split
    · simp
    · next h => exact h
  · split
    · simp
    · next h => exact h
  · generalize (if (match parse_date_any r.roOpenDate with
      | some d => Int.fdiv (today - d) 86400
      | none => 0) < 0 then 0 else
        (match parse_date_any r.roOpenDate with
         | some d => Int.fdiv (today - d) 86400
         | none => 0)) = days
    unfold age_bucket_from_days
    split
    · simp
    · split
      · simp
      · split
        · simp
        · split
          · simp
          · split
            · simp
            · simp

/-- Closed witness for C7: a concrete row with the absent date sentinel has
`days_open = 0`; a concrete row opened 2024-01-02 enriched as of the epoch
(a negative day difference) also has `days_open = 0`; and its cleaned hold
reason is nonempty. -/
theorem enriched_fields_populated_witness :
    (enrich_record 0 sample_raw_absent).DAYS_OPEN = 0 ∧
    (enrich_record 0 sample_raw).DAYS_OPEN = 0 ∧
    (enrich_record 0 sample_raw).HOLD_REASON_CLEAN ≠ "" := by
  refine ⟨?_, ?_, ?_⟩
  · exact (enriched_fields_populated 0 sample_raw_absent).2.1 rfl
  · exact (enriched_fields_populated 0 sample_raw).2.2.1 1704153600 rfl
      (by decide)
  · exact (enriched_fields_populated 0 sample_raw).2.2.2.1
